import Mathlib

/-!
Shallow embedding of `dnsly` (src/dnsly/core.py): the domain validator
`validate_domain` and the lookup dispatcher `dns_lookup`, together with
theorems settling the frozen claims about them.

The external resolver back-end (`dns.resolver`) and the reverse-name
conversion (`dns.reversename.from_address`) are third-party library calls;
they are modelled as an explicit environment parameter, so that `dns_lookup`
becomes a pure function of the input and the back-end's behaviour.
-/

/-- One character of the class `[a-zA-Z0-9]` of the validator's regex. -/
def isAlnum (c : Char) : Bool := c.isAlpha || c.isDigit

/-- One character of the class `[a-zA-Z0-9-]` of the validator's regex. -/
def isLabelChar (c : Char) : Bool := isAlnum c || c == '-'

/-- The first character of a candidate label is alphanumeric
(the leading `[a-zA-Z0-9]` of the label group). -/
def headAlnum (l : List Char) : Bool :=
  match l.head? with
  | some c => isAlnum c
  | none => false

/-- The last character of a candidate label is alphanumeric
(the trailing `[a-zA-Z0-9]` of the label group; for a one-character label the
two coincide). -/
def lastAlnum (l : List Char) : Bool :=
  match l.getLast? with
  | some c => isAlnum c
  | none => false

/-- A character list matches the label group
`[a-zA-Z0-9](?:[a-zA-Z0-9-]{0,61}[a-zA-Z0-9])?` of the regex in
`validate_domain`: nonempty, at most 63 characters, every character
alphanumeric-or-hyphen, first and last characters alphanumeric. -/
def labelOk (l : List Char) : Bool :=
  headAlnum l && lastAlnum l && decide (l.length ≤ 63) && l.all isLabelChar

/-- A character list matches the final group `[a-zA-Z]{2,}` of the regex:
at least two characters, all alphabetic. -/
def finalOk (l : List Char) : Bool :=
  decide (2 ≤ l.length) && l.all Char.isAlpha

/-- The anchored body `(?:LABEL\.)+FINAL` of the regex
`^(?:[a-zA-Z0-9](?:[a-zA-Z0-9-]{0,61}[a-zA-Z0-9])?\.)+[a-zA-Z]{2,}$`
from `validate_domain`.  Neither character class contains the literal dot,
so a match of the whole string decomposes uniquely at the dots: the string
matches exactly when splitting on the dot yields at least two segments,
every segment but the last matches the label group and the last segment
matches the final group. -/
def regexCore (cs : List Char) : Bool :=
  match (cs.splitOn '.').reverse with
  | [] => false
  | f :: rest => finalOk f && !rest.isEmpty && rest.all labelOk

/-- Python `re.match` of the anchored pattern: with `re.MULTILINE` off, the
trailing `$` matches at the end of the string or just before one final
newline, so the pattern also accepts a matching string followed by a single
trailing newline character. -/
def pyMatch (cs : List Char) : Bool :=
  regexCore cs ||
    (match cs.getLast? with
     | some c => c == '\n' && regexCore cs.dropLast
     | none => false)

/-- Embedding of `validate_domain` (core.py lines 10-30): reject the empty
string and strings of more than 253 characters, then match the domain regex
with Python `re.match` semantics. -/
def validate_domain (domain : String) : Bool :=
  if domain.data.isEmpty || decide (domain.data.length > 253) then false
  else pyMatch domain.data

/-- Written from the spec's words: a label of 1-63 alphanumeric-or-hyphen
characters which does not start or end with a hyphen. -/
def SpecLabel (l : List Char) : Prop :=
  1 ≤ l.length ∧ l.length ≤ 63 ∧ (∀ c ∈ l, isLabelChar c = true) ∧
    l.head? ≠ some '-' ∧ l.getLast? ≠ some '-'

/-- Written from the spec's words: a final (top-level) label of at least two
alphabetic characters. -/
def SpecFinal (l : List Char) : Prop :=
  2 ≤ l.length ∧ ∀ c ∈ l, c.isAlpha = true

/-- Written from the spec's words: one or more labels separated by literal
dots, followed by a final label of at least 2 alphabetic characters. -/
def SpecDomainGrammar (cs : List Char) : Prop :=
  ∃ ls f, ls ≠ [] ∧ (∀ l ∈ ls, SpecLabel l) ∧ SpecFinal f ∧
    cs = List.intercalate ['.'] (ls ++ [f])

/-- One DNS answer object (`rdata`) as `dns_lookup` consumes it: the fields
the dispatcher reads (`str(rdata)`, `preference`, `exchange`, `mname`,
`rname`, `serial`, `refresh`, `retry`, `expire`, `minimum`).  For a given
record type only the relevant fields carry information. -/
structure Rdata where
  toStr : String
  preference : Nat
  exchange : String
  mname : String
  rname : String
  serial : Nat
  refresh : Nat
  retry : Nat
  expire : Nat
  minimum : Nat
deriving DecidableEq, Repr

/-- One normalized record of the `"records"` list built by `dns_lookup`:
an MX dictionary, an SOA dictionary, or a plain string. -/
inductive DnsRecord where
  | mx (preference : Nat) (exchange : String)
  | soa (mname rname : String) (serial refresh retry expire minimum : Nat)
  | plain (s : String)
deriving DecidableEq, Repr

/-- One value of the result dictionary returned by `dns_lookup`. -/
inductive Value where
  | str (s : String)
  | boolV (b : Bool)
  | natV (n : Nat)
  | records (rs : List DnsRecord)
deriving DecidableEq, Repr

/-- The outcome of one `resolver.resolve(name, record_type)` call: a list of
answers, or one of the exceptions `dns_lookup` handles (`NXDOMAIN`,
`NoAnswer`, `Timeout`, `dns.exception.DNSException`, any other exception). -/
inductive ResolveOutcome where
  | answers (rs : List Rdata)
  | nxdomain
  | noAnswer
  | timeout
  | dnsError (details : String)
  | otherError (details : String)
deriving DecidableEq, Repr

/-- The external back-end `dns_lookup` talks to: the reverse-name conversion
`dns.reversename.from_address` (`none` models the exception it raises on a
string that is not an IP address) and the resolver `resolve` call. -/
structure ResolverEnv where
  fromAddress : String → Option String
  resolve : String → String → ResolveOutcome

/-- Python `s.strip(c)`: remove every leading and trailing occurrence of the
character `c`. -/
def pyStrip (c : Char) (s : String) : String :=
  String.mk (((s.data.dropWhile (fun d => d == c)).reverse.dropWhile
    (fun d => d == c)).reverse)

/-- Python `s.upper()` on the record-type strings involved: uppercase each
character. -/
def pyUpper (s : String) : String := String.mk (s.data.map Char.toUpper)

/-- The per-record normalization of the dispatcher's result loop
(core.py lines 74-95): MX answers become `{preference, exchange}`
dictionaries, TXT answers are `str(rdata).strip(chr 34)`, SOA answers become
the seven-field dictionary, every other answer is `str(rdata)`. -/
def normalizeRecord (record_type : String) (r : Rdata) : DnsRecord :=
  if pyUpper record_type == "MX" then .mx r.preference r.exchange
  else if pyUpper record_type == "TXT" then .plain (pyStrip '\"' r.toStr)
  else if pyUpper record_type == "SOA" then
    .soa r.mname r.rname r.serial r.refresh r.retry r.expire r.minimum
  else .plain r.toStr

/-- A failure dictionary of `dns_lookup`:
keys `success`, `error`, `domain`, `record_type`. -/
def failResult (error domain record_type : String) : List (String × Value) :=
  [("success", .boolV false), ("error", .str error),
   ("domain", .str domain), ("record_type", .str record_type)]

/-- A success dictionary of `dns_lookup`: keys `success`, `domain`,
`record_type`, `records`, `count`, with `count = len(results)`. -/
def successResult (domain record_type : String) (results : List DnsRecord) :
    List (String × Value) :=
  [("success", .boolV true), ("domain", .str domain),
   ("record_type", .str record_type), ("records", .records results),
   ("count", .natV results.length)]

/-- The name `dns_lookup` actually queries: for PTR the result of
`dns.reversename.from_address(domain)` (with `none` standing for the raised
exception), for every other record type the input itself. -/
def queryName (env : ResolverEnv) (domain record_type : String) :
    Option String :=
  if pyUpper record_type == "PTR" then env.fromAddress domain else some domain

/-- Embedding of `dns_lookup` (core.py lines 33-139), instrumented with the
number of `resolver.resolve` calls made.  The control flow of the source:
first `validate_domain` (for every record type), then for PTR the reverse
name conversion (rebinding `domain`), then the resolve call with each
exception mapped to its failure dictionary; the dictionaries built after the
rebinding use the rebound name. -/
def dns_lookup_run (env : ResolverEnv) (domain record_type : String) :
    (List (String × Value)) × Nat :=
  if validate_domain domain = false then
    (failResult "Invalid domain format" domain record_type, 0)
  else
    match queryName env domain record_type with
    | none => (failResult "Invalid IP address for PTR lookup" domain record_type, 0)
    | some domain2 =>
      match env.resolve domain2 record_type with
      | .answers rs =>
          (successResult domain2 record_type (rs.map (normalizeRecord record_type)), 1)
      | .nxdomain => (failResult "Domain does not exist" domain2 record_type, 1)
      | .noAnswer =>
          (failResult ("No " ++ record_type ++ " records found") domain2 record_type, 1)
      | .timeout => (failResult "DNS query timed out" domain2 record_type, 1)
      | .dnsError e => (failResult ("DNS error: " ++ e) domain2 record_type, 1)
      | .otherError e => (failResult ("Unexpected error: " ++ e) domain2 record_type, 1)

/-- The result dictionary of `dns_lookup`. -/
def dns_lookup (env : ResolverEnv) (domain record_type : String) :
    List (String × Value) :=
  (dns_lookup_run env domain record_type).1

/-- Dictionary key lookup on a result. -/
def getKey (k : String) (d : List (String × Value)) : Option Value :=
  (d.find? (fun p => p.1 == k)).map (fun p => p.2)

/-- Two consecutive `dns_lookup` calls with identical arguments against the
unchanged back-end `env`: the source builds a fresh `Resolver` per call and
keeps no state between calls, so each call is the same pure function of the
back-end's behaviour. -/
def lookupTwice (env : ResolverEnv) (domain record_type : String) :
    (List (String × Value)) × (List (String × Value)) :=
  (dns_lookup env domain record_type, dns_lookup env domain record_type)

/-- A back-end whose resolver reports NXDOMAIN for every query and whose
reverse-name conversion always fails. -/
def resolverNX : ResolverEnv :=
  ⟨fun _ => none, fun _ _ => ResolveOutcome.nxdomain⟩

/-- One MX answer with preference 10 and exchange mail.example.com. -/
def rdMX : Rdata :=
  ⟨"10 mail.example.com.", 10, "mail.example.com", "", "", 0, 0, 0, 0, 0⟩

/-- A back-end whose resolver returns exactly the one MX answer `rdMX`. -/
def resolverMX : ResolverEnv :=
  ⟨fun _ => none, fun _ _ => ResolveOutcome.answers [rdMX]⟩

/-- One A answer, as the plain string 93.184.216.34. -/
def rdA : Rdata :=
  ⟨"93.184.216.34", 0, "", "", "", 0, 0, 0, 0, 0⟩

/-- A back-end whose resolver returns exactly the one A answer `rdA`. -/
def resolverA : ResolverEnv :=
  ⟨fun _ => none, fun _ _ => ResolveOutcome.answers [rdA]⟩

/-- One TXT answer whose string representation carries the surrounding
quote characters, as `str(rdata)` does for TXT records. -/
def rdTXT : Rdata :=
  ⟨"\"v=spf1 -all\"", 0, "", "", "", 0, 0, 0, 0, 0⟩

/-- A back-end whose resolver returns exactly the one TXT answer `rdTXT`. -/
def resolverTXT : ResolverEnv :=
  ⟨fun _ => none, fun _ _ => ResolveOutcome.answers [rdTXT]⟩

lemma labelOk_iff (l : List Char) : labelOk l = true ↔ SpecLabel l := by
  constructor
  · intro h
    simp only [labelOk, Bool.and_eq_true, List.all_eq_true, decide_eq_true_eq] at h
    obtain ⟨⟨⟨hh, hl⟩, hlen⟩, hall⟩ := h
    have hne : l ≠ [] := by
      intro he
      subst he
      simp [headAlnum] at hh
    refine ⟨?_, hlen, hall, ?_, ?_⟩
    · exact List.length_pos.mpr hne
    · intro hc
      rw [headAlnum, hc] at hh
      simp at hh
      exact absurd hh (by decide)
    · intro hc
      rw [lastAlnum, hc] at hl
      simp at hl
      exact absurd hl (by decide)
  · rintro ⟨h1, h63, hall, hhd, hlast⟩
    have hne : l ≠ [] := by
      intro he
      subst he
      simp at h1
    simp only [labelOk, Bool.and_eq_true, List.all_eq_true, decide_eq_true_eq]
    refine ⟨⟨⟨?_, ?_⟩, h63⟩, hall⟩
    · rcases hhc : l.head? with _ | c
      · exact absurd (List.head?_eq_none_iff.mp hhc) hne
      · have hmem : c ∈ l := List.mem_of_mem_head? hhc
        have := hall c hmem
        rw [headAlnum, hhc]
        rcases (Bool.or_eq_true _ _).mp this with h | h
        · exact h
        · exfalso
          apply hhd
          rw [hhc]
          have : c = '-' := by simpa using h
          rw [this]
    · rcases hlc : l.getLast? with _ | c
      · exact absurd (List.getLast?_eq_none_iff.mp hlc) hne
      · have hmem : c ∈ l := List.mem_of_mem_getLast? hlc
        have := hall c hmem
        rw [lastAlnum, hlc]
        rcases (Bool.or_eq_true _ _).mp this with h | h
        · exact h
        · exfalso
          apply hlast
          rw [hlc]
          have : c = '-' := by simpa using h
          rw [this]

lemma finalOk_iff (l : List Char) : finalOk l = true ↔ SpecFinal l := by
  simp [finalOk, SpecFinal, List.all_eq_true]

lemma specLabel_not_dot {l : List Char} (h : SpecLabel l) : '.' ∉ l := by
  intro hm
  have := h.2.2.1 '.' hm
  exact absurd this (by decide)

lemma specFinal_not_dot {l : List Char} (h : SpecFinal l) : '.' ∉ l := by
  intro hm
  have := h.2 '.' hm
  exact absurd this (by decide)

lemma regexCore_iff (cs : List Char) : regexCore cs = true ↔ SpecDomainGrammar cs := by
  constructor
  · intro h
    rcases hrev : (cs.splitOn '.').reverse with _ | ⟨f, rest⟩
    · rw [regexCore, hrev] at h
      exact absurd h (by simp)
    · rw [regexCore, hrev] at h
      simp only [Bool.and_eq_true, Bool.not_eq_true', List.isEmpty_eq_false,
        List.all_eq_true] at h
      obtain ⟨⟨hf, hrne⟩, hlab⟩ := h
      refine ⟨rest.reverse, f, by simpa using hrne, ?_, (finalOk_iff f).mp hf, ?_⟩
      · intro l hl
        exact (labelOk_iff l).mp (hlab l (List.mem_reverse.mp hl))
      · have hsplit : cs.splitOn '.' = rest.reverse ++ [f] := by
          have : (cs.splitOn '.').reverse.reverse = (f :: rest).reverse := by
            rw [hrev]
          simpa using this
        calc cs = List.intercalate ['.'] (cs.splitOn '.') :=
              (List.intercalate_splitOn cs '.').symm
          _ = List.intercalate ['.'] (rest.reverse ++ [f]) := by rw [hsplit]
  · rintro ⟨ls, f, hne, hlab, hfin, hcs⟩
    have hnodot : ∀ l ∈ ls ++ [f], '.' ∉ l := by
      intro l hl
      rcases List.mem_append.mp hl with h | h
      · exact specLabel_not_dot (hlab l h)
      · rw [List.mem_singleton.mp h]
        exact specFinal_not_dot hfin
    have hsplit : cs.splitOn '.' = ls ++ [f] := by
      rw [hcs]
      exact List.splitOn_intercalate (ls ++ [f]) '.' hnodot (by simp)
    have hrev : (cs.splitOn '.').reverse = f :: ls.reverse := by
      rw [hsplit]
      simp
    rw [regexCore, hrev]
    simp only [Bool.and_eq_true, Bool.not_eq_true', List.isEmpty_eq_false,
      List.all_eq_true]
    refine ⟨⟨(finalOk_iff f).mpr hfin, by simpa using hne⟩, ?_⟩
    intro l hl
    exact (labelOk_iff l).mpr (hlab l (List.mem_reverse.mp hl))


lemma getKey_success_fail (e d rt : String) :
    getKey "success" (failResult e d rt) = some (Value.boolV false) := rfl

lemma getKey_error_fail (e d rt : String) :
    getKey "error" (failResult e d rt) = some (Value.str e) := rfl

lemma getKey_domain_fail (e d rt : String) :
    getKey "domain" (failResult e d rt) = some (Value.str d) := rfl

lemma getKey_rt_fail (e d rt : String) :
    getKey "record_type" (failResult e d rt) = some (Value.str rt) := rfl

lemma getKey_records_fail (e d rt : String) :
    getKey "records" (failResult e d rt) = none := rfl

lemma getKey_count_fail (e d rt : String) :
    getKey "count" (failResult e d rt) = none := rfl

lemma getKey_success_succ (d rt : String) (rs : List DnsRecord) :
    getKey "success" (successResult d rt rs) = some (Value.boolV true) := rfl

lemma getKey_domain_succ (d rt : String) (rs : List DnsRecord) :
    getKey "domain" (successResult d rt rs) = some (Value.str d) := rfl

lemma getKey_rt_succ (d rt : String) (rs : List DnsRecord) :
    getKey "record_type" (successResult d rt rs) = some (Value.str rt) := rfl

lemma validate_domain_true_of_not_false {d : String}
    (h : ¬ validate_domain d = false) : validate_domain d = true := by
  revert h
  cases validate_domain d <;> simp

/-- Exhaustive case analysis of `dns_lookup`: a validation failure keeps the
input name, a PTR conversion failure keeps the input name, and every
dictionary built after the resolve call carries the name actually queried. -/
lemma dns_lookup_cases (env : ResolverEnv) (domain record_type : String) :
    (validate_domain domain = false ∧
      dns_lookup env domain record_type =
        failResult "Invalid domain format" domain record_type) ∨
    (validate_domain domain = true ∧ queryName env domain record_type = none ∧
      dns_lookup env domain record_type =
        failResult "Invalid IP address for PTR lookup" domain record_type) ∨
    (∃ d2, validate_domain domain = true ∧
      queryName env domain record_type = some d2 ∧
      ((∃ rs, env.resolve d2 record_type = ResolveOutcome.answers rs ∧
        dns_lookup env domain record_type =
          successResult d2 record_type (rs.map (normalizeRecord record_type))) ∨
       (∃ e, dns_lookup env domain record_type = failResult e d2 record_type))) := by
  by_cases hv : validate_domain domain = false
  · exact Or.inl ⟨hv, by simp [dns_lookup, dns_lookup_run, hv]⟩
  · have hv2 := validate_domain_true_of_not_false hv
    rcases hq : queryName env domain record_type with _ | d2
    · exact Or.inr (Or.inl ⟨hv2, rfl, by simp [dns_lookup, dns_lookup_run, hv2, hq]⟩)
    · refine Or.inr (Or.inr ⟨d2, hv2, rfl, ?_⟩)
      rcases hres : env.resolve d2 record_type with rs | _ | _ | _ | e | e
      · exact Or.inl ⟨rs, rfl, by simp [dns_lookup, dns_lookup_run, hv2, hq, hres]⟩
      · exact Or.inr ⟨"Domain does not exist",
          by simp [dns_lookup, dns_lookup_run, hv2, hq, hres]⟩
      · exact Or.inr ⟨"No " ++ record_type ++ " records found",
          by simp [dns_lookup, dns_lookup_run, hv2, hq, hres]⟩
      · exact Or.inr ⟨"DNS query timed out",
          by simp [dns_lookup, dns_lookup_run, hv2, hq, hres]⟩
      · exact Or.inr ⟨"DNS error: " ++ e,
          by simp [dns_lookup, dns_lookup_run, hv2, hq, hres]⟩
      · exact Or.inr ⟨"Unexpected error: " ++ e,
          by simp [dns_lookup, dns_lookup_run, hv2, hq, hres]⟩

/-- Claim C1 (code bug): the source runs `validate_domain` before the PTR
branch, so a PTR lookup of an IP address literal (here 8.8.8.8) returns the
validator's failure dictionary without ever reaching the reverse-name
conversion, for every back-end; likewise an unparsable input such as
not-an-ip returns the validator's message, not the claimed
"Invalid IP address for PTR lookup". -/
theorem C1_ptr_runs_validator_first (env : ResolverEnv) :
    dns_lookup_run env "8.8.8.8" "PTR" =
      (failResult "Invalid domain format" "8.8.8.8" "PTR", 0) ∧
    dns_lookup_run env "not-an-ip" "PTR" =
      (failResult "Invalid domain format" "not-an-ip" "PTR", 0) := by
  constructor
  · simp [dns_lookup_run, show validate_domain "8.8.8.8" = false from by decide]
  · simp [dns_lookup_run, show validate_domain "not-an-ip" = false from by decide]

/-- Claim C2, counterexample: the regex of `validate_domain` is matched with
Python `re.match`, whose trailing dollar anchor also matches just before one
final newline, so the string ab.cd followed by a newline character is
accepted although it does not belong to the spec's label grammar. -/
theorem C2_counterexample :
    validate_domain "ab.cd\n" = true ∧ ¬ SpecDomainGrammar ("ab.cd\n".data) :=
  ⟨by decide, fun h => absurd ((regexCore_iff ("ab.cd\n".data)).mpr h) (by decide)⟩

/-- Claim C2 as amended: among strings of at most 253 characters,
`validate_domain` accepts exactly the strings of the spec's label grammar
(one or more 1-63 character alphanumeric-or-hyphen labels not starting or
ending with a hyphen, separated by literal dots, then a final label of at
least two alphabetic characters), or such a string followed by one trailing
newline character; every string with an empty label, consecutive dots or a
hyphen at a label boundary is rejected. -/
theorem C2_validate_iff_grammar (s : String) (h : s.data.length ≤ 253) :
    validate_domain s = true ↔
      (SpecDomainGrammar s.data ∨
        ∃ cs, s.data = cs ++ ['\n'] ∧ SpecDomainGrammar cs) := by
  have hnotg : ¬ SpecDomainGrammar ([] : List Char) :=
    fun hg => absurd ((regexCore_iff []).mpr hg) (by decide)
  by_cases he : s.data = []
  · simp [validate_domain, he, hnotg]
  · have hlen : ¬ (253 < s.data.length) := Nat.not_lt.mpr h
    have hcond : ¬ ((s.data.isEmpty || decide (s.data.length > 253)) = true) := by
      intro hcond
      simp only [Bool.or_eq_true, List.isEmpty_eq_true, decide_eq_true_eq] at hcond
      rcases hcond with hc | hc
      · exact he hc
      · exact hlen hc
    rw [validate_domain, if_neg hcond]
    rcases hl : s.data.getLast? with _ | c
    · exact absurd (List.getLast?_eq_none_iff.mp hl) he
    · simp only [pyMatch, hl, Bool.or_eq_true, Bool.and_eq_true, beq_iff_eq,
        regexCore_iff]
      constructor
      · rintro (hg | ⟨hc, hg⟩)
        · exact Or.inl hg
        · refine Or.inr ⟨s.data.dropLast, ?_, hg⟩
          have h1 := List.dropLast_append_getLast he
          have h3 := List.getLast?_eq_getLast s.data he
          rw [hl] at h3
          have hgc : c = s.data.getLast he := (Option.some.injEq _ _).mp h3
          rw [← hgc, hc] at h1
          exact h1.symm
      · rintro (hg | ⟨cs, hcs, hg⟩)
        · exact Or.inl hg
        · refine Or.inr ⟨?_, ?_⟩
          · have h4 : s.data.getLast? = some '\n' := by
              rw [hcs]
              exact List.getLast?_concat cs
            rw [hl] at h4
            exact (Option.some.injEq _ _).mp h4
          · have h5 : s.data.dropLast = cs := by simp [hcs]
            rw [h5]
            exact hg

/-- Witness for the amended claim C2 at the concrete input example.com. -/
theorem C2_validate_iff_grammar_witness :
    validate_domain "example.com" = true ↔
      (SpecDomainGrammar ("example.com".data) ∨
        ∃ cs, "example.com".data = cs ++ ['\n'] ∧ SpecDomainGrammar cs) :=
  C2_validate_iff_grammar "example.com" (by decide)

/-- Claim C3: `validate_domain` rejects the empty string and every string of
more than 253 characters, by its first guard. -/
theorem C3_rejects_empty_and_overlong (s : String)
    (h : s.data = [] ∨ 253 < s.data.length) : validate_domain s = false := by
  rcases h with h | h
  · have hc : (s.data.isEmpty || decide (s.data.length > 253)) = true := by
      simp [h]
    rw [validate_domain, if_pos hc]
  · have hc : (s.data.isEmpty || decide (s.data.length > 253)) = true := by
      rw [decide_eq_true h, Bool.or_true]
    rw [validate_domain, if_pos hc]

/-- Witness for claim C3 at a concrete 254-character string. -/
theorem C3_rejects_empty_and_overlong_witness :
    validate_domain (String.mk (List.replicate 254 'a')) = false :=
  C3_rejects_empty_and_overlong (String.mk (List.replicate 254 'a'))
    (Or.inr (by
      show 253 < (List.replicate 254 'a').length
      rw [List.length_replicate]
      norm_num))

/-- Claim C4: for a non-PTR record type, a domain the validator rejects
produces the "Invalid domain format" failure dictionary and the resolver is
never called (zero resolve calls, for every back-end). -/
theorem C4_invalid_domain_short_circuits (env : ResolverEnv)
    (domain record_type : String)
    (_hrt : pyUpper record_type ≠ "PTR")
    (hv : validate_domain domain = false) :
    dns_lookup_run env domain record_type =
      (failResult "Invalid domain format" domain record_type, 0) := by
  simp [dns_lookup_run, hv]

/-- Witness for claim C4 at the empty string with record type A. -/
theorem C4_invalid_domain_short_circuits_witness :
    dns_lookup_run resolverNX "" "A" =
      (failResult "Invalid domain format" "" "A", 0) :=
  C4_invalid_domain_short_circuits resolverNX "" "A" (by decide) (by decide)

/-- Claim C5: once the resolve call is reached, every resolver outcome is
mapped locally to its failure dictionary: NXDOMAIN to "Domain does not
exist", no answer to "No {record_type} records found", timeout to "DNS query
timed out", a DNS protocol error to "DNS error: {details}" and any other
exception to "Unexpected error: {details}"; `dns_lookup` is a total
function, so no exception crosses its boundary. -/
theorem C5_failure_mapping (env : ResolverEnv)
    (domain record_type domain2 : String)
    (hv : validate_domain domain = true)
    (hq : queryName env domain record_type = some domain2) :
    (env.resolve domain2 record_type = ResolveOutcome.nxdomain →
      dns_lookup env domain record_type =
        failResult "Domain does not exist" domain2 record_type) ∧
    (env.resolve domain2 record_type = ResolveOutcome.noAnswer →
      dns_lookup env domain record_type =
        failResult ("No " ++ record_type ++ " records found") domain2 record_type) ∧
    (env.resolve domain2 record_type = ResolveOutcome.timeout →
      dns_lookup env domain record_type =
        failResult "DNS query timed out" domain2 record_type) ∧
    (∀ e, env.resolve domain2 record_type = ResolveOutcome.dnsError e →
      dns_lookup env domain record_type =
        failResult ("DNS error: " ++ e) domain2 record_type) ∧
    (∀ e, env.resolve domain2 record_type = ResolveOutcome.otherError e →
      dns_lookup env domain record_type =
        failResult ("Unexpected error: " ++ e) domain2 record_type) := by
  refine ⟨fun hres => ?_, fun hres => ?_, fun hres => ?_,
    fun e hres => ?_, fun e hres => ?_⟩ <;>
    simp [dns_lookup, dns_lookup_run, hv, hq, hres]

/-- Witness for claim C5 at example.com, record type A, against the
all-NXDOMAIN back-end. -/
theorem C5_failure_mapping_witness :
    (resolverNX.resolve "example.com" "A" = ResolveOutcome.nxdomain →
      dns_lookup resolverNX "example.com" "A" =
        failResult "Domain does not exist" "example.com" "A") ∧
    (resolverNX.resolve "example.com" "A" = ResolveOutcome.noAnswer →
      dns_lookup resolverNX "example.com" "A" =
        failResult ("No " ++ "A" ++ " records found") "example.com" "A") ∧
    (resolverNX.resolve "example.com" "A" = ResolveOutcome.timeout →
      dns_lookup resolverNX "example.com" "A" =
        failResult "DNS query timed out" "example.com" "A") ∧
    (∀ e, resolverNX.resolve "example.com" "A" = ResolveOutcome.dnsError e →
      dns_lookup resolverNX "example.com" "A" =
        failResult ("DNS error: " ++ e) "example.com" "A") ∧
    (∀ e, resolverNX.resolve "example.com" "A" = ResolveOutcome.otherError e →
      dns_lookup resolverNX "example.com" "A" =
        failResult ("Unexpected error: " ++ e) "example.com" "A") :=
  C5_failure_mapping resolverNX "example.com" "A" "example.com"
    (by decide) (by decide)

/-- Claim C6: a successful resolver response maps to the success dictionary
whose record list is the per-record normalization of the answers in resolver
order (a plain `List.map`: no deduplication, no sorting), with count equal
to the number of answers; under the back-end contract that an empty answer
set is signalled as NoAnswer rather than returned (the first hypothesis),
the record list of a success is never empty. -/
theorem C6_success_mapping (env : ResolverEnv)
    (domain record_type domain2 : String) (rs : List Rdata)
    (hok : ∀ n t, env.resolve n t ≠ ResolveOutcome.answers [])
    (hv : validate_domain domain = true)
    (hq : queryName env domain record_type = some domain2)
    (hres : env.resolve domain2 record_type = ResolveOutcome.answers rs) :
    dns_lookup env domain record_type =
      successResult domain2 record_type (rs.map (normalizeRecord record_type)) ∧
    rs.map (normalizeRecord record_type) ≠ [] ∧
    (rs.map (normalizeRecord record_type)).length = rs.length := by
  have hrs : rs ≠ [] := by
    intro hnil
    exact hok domain2 record_type (by rw [hres, hnil])
  refine ⟨by simp [dns_lookup, dns_lookup_run, hv, hq, hres], ?_, by simp⟩
  simpa using hrs

/-- Witness for claim C6 at example.com, record type A, against a back-end
returning one A answer. -/
theorem C6_success_mapping_witness :
    dns_lookup resolverA "example.com" "A" =
      successResult "example.com" "A" ([rdA].map (normalizeRecord "A")) ∧
    [rdA].map (normalizeRecord "A") ≠ [] ∧
    ([rdA].map (normalizeRecord "A")).length = [rdA].length :=
  C6_success_mapping resolverA "example.com" "A" "example.com" [rdA]
    (fun n t => by simp [resolverA]) (by decide) (by decide) rfl

/-- Claim C7: against a resolver returning exactly one MX answer with
preference 10 and exchange mail.example.com, the lookup of example.com with
record type MX returns the success dictionary with that one record and
count 1. -/
theorem C7_mx_lookup :
    dns_lookup resolverMX "example.com" "MX" =
      [("success", Value.boolV true), ("domain", Value.str "example.com"),
       ("record_type", Value.str "MX"),
       ("records", Value.records [DnsRecord.mx 10 "mail.example.com"]),
       ("count", Value.natV 1)] := by decide

/-- Claim C8: for a TXT lookup every returned record is the answer's string
representation with all leading and trailing quote characters removed
(Python strip of the quote character). -/
theorem C8_txt_quotes_stripped (env : ResolverEnv)
    (domain record_type domain2 : String) (rs : List Rdata)
    (hv : validate_domain domain = true)
    (ht : pyUpper record_type = "TXT")
    (hq : queryName env domain record_type = some domain2)
    (hres : env.resolve domain2 record_type = ResolveOutcome.answers rs) :
    dns_lookup env domain record_type =
      successResult domain2 record_type
        (rs.map (fun r => DnsRecord.plain (pyStrip '\"' r.toStr))) := by
  have hnorm : ∀ r : Rdata,
      normalizeRecord record_type r = DnsRecord.plain (pyStrip '\"' r.toStr) := by
    intro r
    simp [normalizeRecord, ht]
  have hmap : List.map (normalizeRecord record_type) rs =
      List.map (fun r => DnsRecord.plain (pyStrip '\"' r.toStr)) rs :=
    List.map_congr_left (fun r _ => hnorm r)
  simp [dns_lookup, dns_lookup_run, hv, hq, hres, hmap]

/-- Witness for claim C8: a resolver answer whose string form is the quoted
v=spf1 -all yields the record v=spf1 -all with the quotes stripped. -/
theorem C8_txt_quotes_stripped_witness :
    dns_lookup resolverTXT "example.com" "TXT" =
      successResult "example.com" "TXT" [DnsRecord.plain "v=spf1 -all"] := by
  have h := C8_txt_quotes_stripped resolverTXT "example.com" "TXT" "example.com"
    [rdTXT] (by decide) (by decide) (by decide) rfl
  rw [h]
  decide

/-- Claim C9: two consecutive `dns_lookup` calls with identical arguments
against the unchanged back-end produce equal result dictionaries, in
particular equal outcome variants and equal record content; the dispatcher
keeps no state between calls. -/
theorem C9_idempotent_lookup (env : ResolverEnv) (domain record_type : String) :
    (lookupTwice env domain record_type).1 = (lookupTwice env domain record_type).2 ∧
    getKey "success" (lookupTwice env domain record_type).1 =
      getKey "success" (lookupTwice env domain record_type).2 ∧
    getKey "records" (lookupTwice env domain record_type).1 =
      getKey "records" (lookupTwice env domain record_type).2 :=
  ⟨rfl, rfl, rfl⟩

/-- Claim C10: `dns.reversename.from_address` raises on every string that is
not an IP address literal, and no string `validate_domain` accepts parses as
one (the regex's final label is alphabetic, while an IPv4 literal ends in a
digit label and an IPv6 literal contains a colon); the hypothesis states
this as: the conversion fails on every validator-accepted string.  Under it,
every dictionary `dns_lookup` returns carries a domain key and a record_type
key; the record_type key holds the caller's argument unchanged; the domain
key holds the reverse-lookup name on the PTR success path (a path the
hypothesis makes unreachable) and the caller's input on every other path;
and a failure dictionary carries an error key and never a records or count
key. -/
theorem C10_result_keys (env : ResolverEnv) (domain record_type : String)
    (hfa : ∀ s, validate_domain s = true → env.fromAddress s = none) :
    (∃ v, getKey "domain" (dns_lookup env domain record_type) =
      some (Value.str v)) ∧
    getKey "record_type" (dns_lookup env domain record_type) =
      some (Value.str record_type) ∧
    (getKey "success" (dns_lookup env domain record_type) =
        some (Value.boolV false) →
      (∃ e, getKey "error" (dns_lookup env domain record_type) =
        some (Value.str e)) ∧
      getKey "records" (dns_lookup env domain record_type) = none ∧
      getKey "count" (dns_lookup env domain record_type) = none) ∧
    (∀ rev, validate_domain domain = true → pyUpper record_type = "PTR" →
      env.fromAddress domain = some rev →
      getKey "domain" (dns_lookup env domain record_type) =
        some (Value.str rev)) ∧
    getKey "domain" (dns_lookup env domain record_type) =
      some (Value.str domain) := by
  have hptr : ∀ rev, validate_domain domain = true →
      env.fromAddress domain = some rev → False := by
    intro rev hv2 hsome
    rw [hfa domain hv2] at hsome
    exact Option.noConfusion hsome
  rcases dns_lookup_cases env domain record_type with
    ⟨hv, heq⟩ | ⟨hv, hq, heq⟩ | ⟨d2, hv, hq, hsub⟩
  · rw [heq]
    exact ⟨⟨domain, getKey_domain_fail _ _ _⟩, getKey_rt_fail _ _ _,
      fun _ => ⟨⟨_, getKey_error_fail _ _ _⟩, getKey_records_fail _ _ _,
        getKey_count_fail _ _ _⟩,
      fun rev hv2 _ _ => absurd (hv2.symm.trans hv) (by simp),
      getKey_domain_fail _ _ _⟩
  · rw [heq]
    exact ⟨⟨domain, getKey_domain_fail _ _ _⟩, getKey_rt_fail _ _ _,
      fun _ => ⟨⟨_, getKey_error_fail _ _ _⟩, getKey_records_fail _ _ _,
        getKey_count_fail _ _ _⟩,
      fun rev hv2 _ hsome => (hptr rev hv2 hsome).elim,
      getKey_domain_fail _ _ _⟩
  · have hd2 : domain = d2 := by
      by_cases hPTR : (pyUpper record_type == "PTR") = true
      · rw [queryName, if_pos hPTR, hfa domain hv] at hq
        exact Option.noConfusion hq
      · rw [queryName, if_neg hPTR] at hq
        exact (Option.some.injEq _ _).mp hq
    subst hd2
    rcases hsub with ⟨rs, hres, heq⟩ | ⟨e, heq⟩
    · rw [heq]
      refine ⟨⟨domain, getKey_domain_succ _ _ _⟩, getKey_rt_succ _ _ _, ?_,
        fun rev hv2 _ hsome => (hptr rev hv2 hsome).elim,
        getKey_domain_succ _ _ _⟩
      intro hfalse
      rw [getKey_success_succ] at hfalse
      simp at hfalse
    · rw [heq]
      exact ⟨⟨domain, getKey_domain_fail _ _ _⟩, getKey_rt_fail _ _ _,
        fun _ => ⟨⟨e, getKey_error_fail _ _ _⟩, getKey_records_fail _ _ _,
          getKey_count_fail _ _ _⟩,
        fun rev hv2 _ hsome => (hptr rev hv2 hsome).elim,
        getKey_domain_fail _ _ _⟩

/-- Witness for claim C10 at example.com with record type A against the
all-NXDOMAIN back-end, whose reverse conversion fails on every string. -/
theorem C10_result_keys_witness :
    (∃ v, getKey "domain" (dns_lookup resolverNX "example.com" "A") =
      some (Value.str v)) ∧
    getKey "record_type" (dns_lookup resolverNX "example.com" "A") =
      some (Value.str "A") ∧
    (getKey "success" (dns_lookup resolverNX "example.com" "A") =
        some (Value.boolV false) →
      (∃ e, getKey "error" (dns_lookup resolverNX "example.com" "A") =
        some (Value.str e)) ∧
      getKey "records" (dns_lookup resolverNX "example.com" "A") = none ∧
      getKey "count" (dns_lookup resolverNX "example.com" "A") = none) ∧
    (∀ rev, validate_domain "example.com" = true → pyUpper "A" = "PTR" →
      resolverNX.fromAddress "example.com" = some rev →
      getKey "domain" (dns_lookup resolverNX "example.com" "A") =
        some (Value.str rev)) ∧
    getKey "domain" (dns_lookup resolverNX "example.com" "A") =
      some (Value.str "example.com") :=
  C10_result_keys resolverNX "example.com" "A" (fun _ _ => rfl)
